import Mathlib

/-!
Verification development for the formula evaluation engine of the DataFlow
spreadsheet (src/components/Spreadsheet.tsx, function `evaluateFormula`, and
the identical copy shipped in the second Spreadsheet component).

The engine is embedded shallowly:

* a sheet snapshot is a partial map from key strings `"<row>-<col>"` to raw
  cell content strings, exactly the `SpreadsheetData` object of `App.tsx`;
* the three regex-replacement passes of `evaluateFormula` (bare cell
  references, then `SUM(..:..)`, then `AVERAGE(..:..)` — in the order the
  source applies them) are implemented as left-to-right scans that mirror
  the semantics of JavaScript `String.replace` with those global regexes;
* the final `Function('"use strict"; return (' + expr + ')')()` step is
  modelled by `jsEval`, a tokenizer and recursive-descent parser for the
  arithmetic fragment of JavaScript that the substituted expressions live
  in: numeric literals, `Infinity`/`NaN`, unary `+`/`-`, binary
  `+ - * / %`, parentheses and the comma operator, with the host's
  wrapping parentheses included.  IEEE doubles are idealized as exact
  rationals extended with `Infinity`, `-Infinity` and `NaN` (`JsNum`);
  every value actually evaluated in the theorems below is small and
  exactly representable, where double arithmetic is exact.  Rationals are
  carried as explicit numerator/denominator pairs (`Q`, denominator kept
  positive by every operation) so that all computations reduce inside the
  kernel.
-/

/-- A sheet snapshot: the `SpreadsheetData` object, a partial map from key
strings of the shape `"<row>-<col>"` to raw cell content strings. -/
def Snapshot : Type := String → Option String

/-- The empty snapshot (no cell has ever been written). -/
def emptyData : Snapshot := fun _ => none

/-- The lookup `data[key] || '0'` used by every data access inside
`evaluateFormula`: an absent key, or a key holding the empty string (both
falsy in JavaScript), yields `"0"`. -/
def rawLookup (data : Snapshot) (key : String) : String :=
  match data key with
  | some v => if v = "" then "0" else v
  | none => "0"

/-- The test `s.startsWith('=')` used throughout the source. -/
def jsStartsWithEq (s : String) : Bool :=
  match s.data with
  | c :: _ => c == '='
  | [] => false

/-- An exact rational as an explicit fraction; every operation below keeps
the denominator positive, and fractions are only reduced for rendering. -/
structure Q where
  num : Int
  den : Nat
deriving DecidableEq

/-- The integer `n` as a fraction. -/
def qInt (n : Int) : Q := ⟨n, 1⟩

/-- Fraction addition. -/
def qAdd (a b : Q) : Q := ⟨a.num * (b.den : Int) + b.num * (a.den : Int), a.den * b.den⟩

/-- Fraction negation. -/
def qNeg (a : Q) : Q := ⟨-a.num, a.den⟩

/-- Fraction multiplication. -/
def qMul (a b : Q) : Q := ⟨a.num * b.num, a.den * b.den⟩

/-- Fraction division by a nonzero fraction (callers guard the zero case). -/
def qDiv (a b : Q) : Q :=
  if 0 < b.num then ⟨a.num * (b.den : Int), a.den * b.num.toNat⟩
  else if b.num < 0 then ⟨-(a.num * (b.den : Int)), a.den * (-b.num).toNat⟩
  else ⟨0, 1⟩

/-- Multiplication by a power of ten (decimal exponents). -/
def qMulPow10 (a : Q) (k : Nat) : Q := ⟨a.num * ((10 ^ k : Nat) : Int), a.den⟩

/-- Division by a power of ten (decimal exponents and fractional parts). -/
def qDivPow10 (a : Q) (k : Nat) : Q := ⟨a.num, a.den * 10 ^ k⟩

/-- Truncation toward zero of a fraction. -/
def qTrunc (a : Q) : Int := a.num.tdiv (a.den : Int)

/-- Structural gcd (fuel-driven so that it reduces in the kernel); the fuel
argument strictly dominates the first Euclid argument. -/
def natGcdAux : Nat → Nat → Nat → Nat
  | 0, _, n => n
  | f + 1, m, n => if m = 0 then n else natGcdAux f (n % m) m

/-- Greatest common divisor, kernel-reducible. -/
def natGcd (m n : Nat) : Nat := natGcdAux (m + 1) m n

/-- Reduction of a fraction to lowest terms (for rendering). -/
def qReduce (a : Q) : Q :=
  let g := natGcd a.num.natAbs a.den
  if g = 0 then a else ⟨a.num.tdiv (g : Int), a.den / g⟩

/-- JavaScript numbers, idealized: exact rationals plus the three special
values.  All values produced in the theorems below are exactly
representable doubles, where this idealization is faithful. -/
inductive JsNum where
  | fin (q : Q)
  | inf
  | ninf
  | nan
deriving DecidableEq

/-- JavaScript unary negation. -/
def jsNeg : JsNum → JsNum
  | .fin q => .fin (qNeg q)
  | .inf => .ninf
  | .ninf => .inf
  | .nan => .nan

/-- JavaScript `+` on numbers. -/
def jsAdd : JsNum → JsNum → JsNum
  | .fin a, .fin b => .fin (qAdd a b)
  | .fin _, .inf => .inf
  | .fin _, .ninf => .ninf
  | .inf, .fin _ => .inf
  | .ninf, .fin _ => .ninf
  | .inf, .inf => .inf
  | .ninf, .ninf => .ninf
  | .inf, .ninf => .nan
  | .ninf, .inf => .nan
  | _, _ => .nan

/-- JavaScript `-` on numbers. -/
def jsSub (a b : JsNum) : JsNum := jsAdd a (jsNeg b)

/-- JavaScript `*` on numbers (the denominators stay positive, so sign
tests inspect the numerator). -/
def jsMul : JsNum → JsNum → JsNum
  | .fin a, .fin b => .fin (qMul a b)
  | .fin a, .inf => if 0 < a.num then .inf else if a.num < 0 then .ninf else .nan
  | .fin a, .ninf => if 0 < a.num then .ninf else if a.num < 0 then .inf else .nan
  | .inf, .fin b => if 0 < b.num then .inf else if b.num < 0 then .ninf else .nan
  | .ninf, .fin b => if 0 < b.num then .ninf else if b.num < 0 then .inf else .nan
  | .inf, .inf => .inf
  | .inf, .ninf => .ninf
  | .ninf, .inf => .ninf
  | .ninf, .ninf => .inf
  | _, _ => .nan

/-- JavaScript `/` on numbers; division of a nonzero finite number by zero
yields a signed infinity, `0/0` yields `NaN` (the sign of floating-point
zero is idealized away: these fractions have a single zero). -/
def jsDiv : JsNum → JsNum → JsNum
  | .fin a, .fin b =>
      if b.num = 0 then (if 0 < a.num then .inf else if a.num < 0 then .ninf else .nan)
      else .fin (qDiv a b)
  | .fin _, .inf => .fin (qInt 0)
  | .fin _, .ninf => .fin (qInt 0)
  | .inf, .fin b => if b.num < 0 then .ninf else .inf
  | .ninf, .fin b => if b.num < 0 then .inf else .ninf
  | _, _ => .nan

/-- JavaScript `%` (truncating remainder, sign of the dividend). -/
def jsMod : JsNum → JsNum → JsNum
  | .fin a, .fin b =>
      if b.num = 0 then .nan
      else .fin (qAdd a (qNeg (qMul b (qInt (qTrunc (qDiv a b))))))
  | .fin a, .inf => .fin a
  | .fin a, .ninf => .fin a
  | _, _ => .nan

/-- Characters treated as whitespace (the ASCII core of the JavaScript
whitespace classes; the exotic Unicode members are idealized away). -/
def isWsChar (c : Char) : Bool := c = ' ' || c = '\t' || c = '\n' || c = '\r'

/-- The `.trim()` of the source, on character lists. -/
def trimChars (l : List Char) : List Char :=
  ((l.dropWhile isWsChar).reverse.dropWhile isWsChar).reverse

/-- Value of a run of decimal digit characters. -/
def digitsToNat (l : List Char) : Nat := l.foldl (fun a c => a * 10 + (c.toNat - 48)) 0

/-- Removes all factors `p` from `n` (fuel-driven); returns the number of
factors removed and the remaining cofactor. -/
def stripFactor (p : Nat) : Nat → Nat → Nat × Nat
  | 0, n => (0, n)
  | f + 1, n =>
      if n % p == 0 && n != 0 && p > 1 then
        let r := stripFactor p f (n / p)
        (r.1 + 1, r.2)
      else (0, n)

/-- Left-pads a string with zeros to the given length. -/
def padZeros (k : Nat) (s : String) : String :=
  String.mk (List.replicate (k - s.length) '0') ++ s

/-- Rendering of a reduced nonnegative fraction the way JavaScript
`String(n)` renders the corresponding double: integers without a
fractional part, terminating decimals exactly.  A reduced denominator not
of the form `2^a * 5^b` has no terminating decimal; that fallback case is
idealized (it is never produced by any evaluation performed below). -/
def renderQnn (q : Q) : String :=
  if q.den = 1 then toString q.num
  else
    let p2 := stripFactor 2 q.den q.den
    let p5 := stripFactor 5 p2.2 p2.2
    if p5.2 = 1 then
      let k := max p2.1 p5.1
      let n := q.num.toNat * 10 ^ k / q.den
      toString (n / 10 ^ k) ++ "." ++ padZeros k (toString (n % 10 ^ k))
    else toString q.num ++ "/" ++ toString q.den

/-- Rendering of a fraction as JavaScript `String(n)` renders its value. -/
def renderQ (q : Q) : String :=
  let r := qReduce q
  if r.num < 0 then "-" ++ renderQnn ⟨-r.num, r.den⟩ else renderQnn r

/-- JavaScript `String(n)` on a number. -/
def renderJs : JsNum → String
  | .fin q => renderQ q
  | .inf => "Infinity"
  | .ninf => "-Infinity"
  | .nan => "NaN"

/-- Mantissa value `ip.fp` of a parsed decimal. -/
def pfDigitsVal (ip fp : List Char) : Q :=
  qAdd (qInt (digitsToNat ip)) (qDivPow10 (qInt (digitsToNat fp)) fp.length)

/-- Exponent digits of a `parseFloat` input: when present they scale the
mantissa, when absent the exponent marker is not part of the longest valid
numeric prefix and is ignored. -/
def pfExpDigits (q : Q) (l : List Char) (negE : Bool) : Q :=
  let ds := l.takeWhile Char.isDigit
  if ds.isEmpty then q
  else if negE then qDivPow10 q (digitsToNat ds) else qMulPow10 q (digitsToNat ds)

/-- Optional sign of a `parseFloat` exponent. -/
def pfExpTail (q : Q) (l : List Char) : Q :=
  match l with
  | '+' :: r => pfExpDigits q r false
  | '-' :: r => pfExpDigits q r true
  | r => pfExpDigits q r false

/-- Optional exponent part of a `parseFloat` input. -/
def pfExponent (q : Q) (l : List Char) : Q :=
  match l with
  | 'e' :: r => pfExpTail q r
  | 'E' :: r => pfExpTail q r
  | _ => q

/-- Unsigned part of JavaScript `parseFloat`: `Infinity`, or the longest
prefix shaped `digits [. digits] [exponent]` / `. digits [exponent]`;
`none` models a `NaN` result. -/
def pfUnsigned (l : List Char) : Option JsNum :=
  if l.take 8 = "Infinity".data then some JsNum.inf
  else
    let ip := l.takeWhile Char.isDigit
    let r1 := l.drop ip.length
    match r1 with
    | '.' :: r2 =>
        let fp := r2.takeWhile Char.isDigit
        let r3 := r2.drop fp.length
        if ip.isEmpty && fp.isEmpty then none
        else some (JsNum.fin (pfExponent (pfDigitsVal ip fp) r3))
    | _ => if ip.isEmpty then none else some (JsNum.fin (pfExponent (pfDigitsVal ip []) r1))

/-- JavaScript `parseFloat`, returning `none` exactly when the result is
`NaN` (the callers only use the result through an `isNaN` guard). -/
def parseFloat (s : String) : Option JsNum :=
  match s.data.dropWhile isWsChar with
  | '+' :: r => pfUnsigned r
  | '-' :: r => (pfUnsigned r).map jsNeg
  | r => pfUnsigned r

/-- Key string `rowIdx + "-" + colIdx` built by `evaluateFormula`; the row
index may be negative (the source performs no validation). -/
def keyOf (r c : Int) : String := toString r ++ "-" ++ toString c

/-- The column index `col.charCodeAt(0) - 65` computed by every reference
substitution in the source: only the FIRST character of the letter run is
consulted.  The empty case is unreachable (the regex groups capture at
least one letter). -/
def colIndexOfLetters : List Char → Int
  | [] => 0
  | c :: _ => (c.toNat : Int) - 65

/-- The key a bare cell reference resolves to: row `parseInt(digits) - 1`,
column from the first letter. -/
def cellKey (letters digits : List Char) : String :=
  keyOf ((digitsToNat digits : Int) - 1) (colIndexOfLetters letters)

/-- The replacement string computed by the `cellRefRegex` callback: a cell
whose raw content starts with `=` contributes `"0"`; otherwise the content
is coerced with `parseFloat`, `NaN` becoming `"0"`. -/
def cellRefScalar (look : String → String) (letters digits : List Char) : String :=
  if jsStartsWithEq (look (cellKey letters digits)) then "0"
  else
    match parseFloat (look (cellKey letters digits)) with
    | none => "0"
    | some n => renderJs n

/-- The integer range `a, a+1, …, b` traversed by a
`for (let i = a; i <= b; i++)` loop; empty when `b < a`. -/
def intRange (a b : Int) : List Int :=
  (List.range (b - a + 1).toNat).map (fun i => a + (i : Int))

/-- Row-major list of the keys visited by the nested range loops of the
`SUM`/`AVERAGE` callbacks. -/
def rangeKeys (sr sc er ec : Int) : List String :=
  (intRange sr er).flatMap (fun r => (intRange sc ec).map (fun c => keyOf r c))

/-- One iteration of the `SUM` loop body: skip formula cells, skip `NaN`,
accumulate the parsed value. -/
def sumStep (look : String → String) (acc : JsNum) (key : String) : JsNum :=
  if jsStartsWithEq (look key) then acc
  else
    match parseFloat (look key) with
    | none => acc
    | some n => jsAdd acc n

/-- The scalar string substituted for a `SUM(<cell>:<cell>)` match. -/
def sumScalar (look : String → String) (sc sr ec er : List Char) : String :=
  renderJs ((rangeKeys ((digitsToNat sr : Int) - 1) (colIndexOfLetters sc)
      ((digitsToNat er : Int) - 1) (colIndexOfLetters ec)).foldl (sumStep look) (JsNum.fin (qInt 0)))

/-- One iteration of the `AVERAGE` loop body: as `sumStep`, also counting
the contributing cells. -/
def avgStep (look : String → String) (acc : JsNum × Nat) (key : String) : JsNum × Nat :=
  if jsStartsWithEq (look key) then acc
  else
    match parseFloat (look key) with
    | none => acc
    | some n => (jsAdd acc.1 n, acc.2 + 1)

/-- The scalar string substituted for an `AVERAGE(<cell>:<cell>)` match:
`count > 0 ? String(sum / count) : '0'`. -/
def avgScalar (look : String → String) (sc sr ec er : List Char) : String :=
  let p := (rangeKeys ((digitsToNat sr : Int) - 1) (colIndexOfLetters sc)
      ((digitsToNat er : Int) - 1) (colIndexOfLetters ec)).foldl (avgStep look) (JsNum.fin (qInt 0), 0)
  if p.2 > 0 then renderJs (jsDiv p.1 (JsNum.fin (qInt (p.2 : Int)))) else "0"

/-- Left-to-right global-replace scan: at each position try the matcher; on
a match splice in the replacement and resume after the match (which always
consumes at least one character), otherwise keep the character.  This is
the semantics of `String.replace` with a global regex and a callback.  The
fuel is instantiated with more than the input length by every caller. -/
def replaceScan (m : List Char → Option (List Char × List Char)) : Nat → List Char → List Char
  | 0, l => l
  | _ + 1, [] => []
  | f + 1, c :: rest =>
      match m (c :: rest) with
      | some (repl, after) => repl ++ replaceScan m f after
      | none => c :: replaceScan m f rest

/-- Matcher for `cellRefRegex = /([A-Z]+)(\d+)/g`: a maximal run of
uppercase letters immediately followed by a maximal nonempty run of
digits. -/
def cellRefMatch (look : String → String) (l : List Char) : Option (List Char × List Char) :=
  let letters := l.takeWhile Char.isUpper
  if letters.isEmpty then none
  else
    let r1 := l.drop letters.length
    let digits := r1.takeWhile Char.isDigit
    if digits.isEmpty then none
    else some ((cellRefScalar look letters digits).data, r1.drop digits.length)

/-- The range argument `([A-Z]+)(\d+):([A-Z]+)(\d+)\)` shared by the SUM
and AVERAGE regexes; under the `i` flag the letter class matches both
cases. -/
def rangeArgs (l : List Char) : Option (List Char × List Char × List Char × List Char × List Char) :=
  let sc := l.takeWhile Char.isAlpha
  if sc.isEmpty then none
  else
    let r1 := l.drop sc.length
    let sr := r1.takeWhile Char.isDigit
    if sr.isEmpty then none
    else
      match r1.drop sr.length with
      | ':' :: r3 =>
          let ec := r3.takeWhile Char.isAlpha
          if ec.isEmpty then none
          else
            let r4 := r3.drop ec.length
            let er := r4.takeWhile Char.isDigit
            if er.isEmpty then none
            else
              match r4.drop er.length with
              | ')' :: r6 => some (sc, sr, ec, er, r6)
              | _ => none
      | _ => none

/-- Matcher for `sumRegex = /SUM\(([A-Z]+)(\d+):([A-Z]+)(\d+)\)/gi`. -/
def sumMatch (look : String → String) (l : List Char) : Option (List Char × List Char) :=
  if (l.take 4).map Char.toLower = "sum(".data then
    match rangeArgs (l.drop 4) with
    | some (sc, sr, ec, er, rest) => some ((sumScalar look sc sr ec er).data, rest)
    | none => none
  else none

/-- Matcher for `avgRegex = /AVERAGE\(([A-Z]+)(\d+):([A-Z]+)(\d+)\)/gi`. -/
def avgMatch (look : String → String) (l : List Char) : Option (List Char × List Char) :=
  if (l.take 8).map Char.toLower = "average(".data then
    match rangeArgs (l.drop 8) with
    | some (sc, sr, ec, er, rest) => some ((avgScalar look sc sr ec er).data, rest)
    | none => none
  else none

/-- First substitution pass of the source: bare cell references. -/
def cellRefPass (look : String → String) (l : List Char) : List Char :=
  replaceScan (cellRefMatch look) (l.length + 1) l

/-- Second substitution pass of the source: `SUM` calls. -/
def sumPass (look : String → String) (l : List Char) : List Char :=
  replaceScan (sumMatch look) (l.length + 1) l

/-- Third substitution pass of the source: `AVERAGE` calls. -/
def avgPass (look : String → String) (l : List Char) : List Char :=
  replaceScan (avgMatch look) (l.length + 1) l

/-- The three substitution passes, applied in the order the source applies
them: cell references first, then `SUM`, then `AVERAGE`. -/
def substAll (look : String → String) (expr : List Char) : List Char :=
  avgPass look (sumPass look (cellRefPass look expr))

/-- Tokens of the arithmetic fragment of JavaScript reachable from the
substituted expressions. -/
inductive Tok where
  | num (v : Q)
  | ident (s : String)
  | lparen
  | rparen
  | plus
  | minus
  | star
  | slash
  | percent
  | comma
deriving DecidableEq

/-- Optional strict exponent of a JavaScript numeric literal: unlike
`parseFloat`, a dangling `e` is a syntax error. -/
def lexExponent (q : Q) (l : List Char) : Option (Q × List Char) :=
  match l with
  | 'e' :: r =>
      (match r with
       | '+' :: r2 =>
           let ds := r2.takeWhile Char.isDigit
           if ds.isEmpty then none else some (qMulPow10 q (digitsToNat ds), r2.drop ds.length)
       | '-' :: r2 =>
           let ds := r2.takeWhile Char.isDigit
           if ds.isEmpty then none else some (qDivPow10 q (digitsToNat ds), r2.drop ds.length)
       | r2 =>
           let ds := r2.takeWhile Char.isDigit
           if ds.isEmpty then none else some (qMulPow10 q (digitsToNat ds), r2.drop ds.length))
  | 'E' :: r =>
      (match r with
       | '+' :: r2 =>
           let ds := r2.takeWhile Char.isDigit
           if ds.isEmpty then none else some (qMulPow10 q (digitsToNat ds), r2.drop ds.length)
       | '-' :: r2 =>
           let ds := r2.takeWhile Char.isDigit
           if ds.isEmpty then none else some (qDivPow10 q (digitsToNat ds), r2.drop ds.length)
       | r2 =>
           let ds := r2.takeWhile Char.isDigit
           if ds.isEmpty then none else some (qMulPow10 q (digitsToNat ds), r2.drop ds.length))
  | _ => some (q, l)

/-- A JavaScript decimal numeric literal: `digits [. digits] [exp]` or
`. digits [exp]`. -/
def lexNumber (l : List Char) : Option (Q × List Char) :=
  let ip := l.takeWhile Char.isDigit
  let r1 := l.drop ip.length
  match r1 with
  | '.' :: r2 =>
      let fp := r2.takeWhile Char.isDigit
      let r3 := r2.drop fp.length
      if ip.isEmpty && fp.isEmpty then none
      else lexExponent (pfDigitsVal ip fp) r3
  | _ => if ip.isEmpty then none else lexExponent (pfDigitsVal ip []) r1

/-- Tokenizer for the modelled fragment.  `--` and `++` tokenize as the
increment operators, which are syntax errors in the positions reachable
here, so they fail directly; characters outside the fragment fail.  The
fuel is instantiated with more than the input length. -/
def tokenize : Nat → List Char → Option (List Tok)
  | 0, l => if l.isEmpty then some [] else none
  | f + 1, l0 =>
      match l0.dropWhile isWsChar with
      | [] => some []
      | c :: rest =>
          if c.isDigit || c = '.' then
            match lexNumber (c :: rest) with
            | some (q, r) => (tokenize f r).map (fun ts => Tok.num q :: ts)
            | none => none
          else if c.isAlpha then
            let idc := (c :: rest).takeWhile (fun ch => ch.isAlpha || ch.isDigit)
            (tokenize f ((c :: rest).drop idc.length)).map (fun ts => Tok.ident (String.mk idc) :: ts)
          else if c = '+' then
            match rest with
            | '+' :: _ => none
            | _ => (tokenize f rest).map (fun ts => Tok.plus :: ts)
          else if c = '-' then
            match rest with
            | '-' :: _ => none
            | _ => (tokenize f rest).map (fun ts => Tok.minus :: ts)
          else if c = '*' then (tokenize f rest).map (fun ts => Tok.star :: ts)
          else if c = '/' then (tokenize f rest).map (fun ts => Tok.slash :: ts)
          else if c = '%' then (tokenize f rest).map (fun ts => Tok.percent :: ts)
          else if c = '(' then (tokenize f rest).map (fun ts => Tok.lparen :: ts)
          else if c = ')' then (tokenize f rest).map (fun ts => Tok.rparen :: ts)
          else if c = ',' then (tokenize f rest).map (fun ts => Tok.comma :: ts)
          else none

mutual

/-- Comma-operator level: a sequence of additive expressions, the value of
the last one. -/
def parseE : Nat → List Tok → Option (JsNum × List Tok)
  | 0, _ => none
  | f + 1, ts =>
      match parseA f ts with
      | some (v, r) => parseEAux f v r
      | none => none

/-- Remaining `, expr` tail of a comma sequence. -/
def parseEAux : Nat → JsNum → List Tok → Option (JsNum × List Tok)
  | 0, _, _ => none
  | f + 1, _, Tok.comma :: r =>
      match parseA f r with
      | some (v2, r2) => parseEAux f v2 r2
      | none => none
  | _ + 1, v, ts => some (v, ts)

/-- Additive level: left-associated `+`/`-` chains. -/
def parseA : Nat → List Tok → Option (JsNum × List Tok)
  | 0, _ => none
  | f + 1, ts =>
      match parseM f ts with
      | some (v, r) => parseAAux f v r
      | none => none

/-- Remaining `+ term` / `- term` tail of an additive chain. -/
def parseAAux : Nat → JsNum → List Tok → Option (JsNum × List Tok)
  | 0, _, _ => none
  | f + 1, acc, Tok.plus :: r =>
      match parseM f r with
      | some (v, r2) => parseAAux f (jsAdd acc v) r2
      | none => none
  | f + 1, acc, Tok.minus :: r =>
      match parseM f r with
      | some (v, r2) => parseAAux f (jsSub acc v) r2
      | none => none
  | _ + 1, acc, ts => some (acc, ts)

/-- Multiplicative level: left-associated `*`/`/`/`%` chains. -/
def parseM : Nat → List Tok → Option (JsNum × List Tok)
  | 0, _ => none
  | f + 1, ts =>
      match parseU f ts with
      | some (v, r) => parseMAux f v r
      | none => none

/-- Remaining `* factor` / `/ factor` / `% factor` tail. -/
def parseMAux : Nat → JsNum → List Tok → Option (JsNum × List Tok)
  | 0, _, _ => none
  | f + 1, acc, Tok.star :: r =>
      match parseU f r with
      | some (v, r2) => parseMAux f (jsMul acc v) r2
      | none => none
  | f + 1, acc, Tok.slash :: r =>
      match parseU f r with
      | some (v, r2) => parseMAux f (jsDiv acc v) r2
      | none => none
  | f + 1, acc, Tok.percent :: r =>
      match parseU f r with
      | some (v, r2) => parseMAux f (jsMod acc v) r2
      | none => none
  | _ + 1, acc, ts => some (acc, ts)

/-- Unary level: prefix `+` (identity on numbers) and `-`. -/
def parseU : Nat → List Tok → Option (JsNum × List Tok)
  | 0, _ => none
  | f + 1, Tok.plus :: r => parseU f r
  | f + 1, Tok.minus :: r =>
      match parseU f r with
      | some (v, r2) => some (jsNeg v, r2)
      | none => none
  | f + 1, ts => parseP f ts

/-- Primary level: numeric literals, `Infinity`, `NaN`, parenthesized
expressions.  Any other identifier is a `ReferenceError` at runtime in the
strict-mode host call, hence a failure. -/
def parseP : Nat → List Tok → Option (JsNum × List Tok)
  | 0, _ => none
  | f + 1, ts =>
      match ts with
      | Tok.num q :: r => some (JsNum.fin q, r)
      | Tok.ident s :: r =>
          if s = "Infinity" then some (JsNum.inf, r)
          else if s = "NaN" then some (JsNum.nan, r)
          else none
      | Tok.lparen :: r =>
          match parseE f r with
          | some (v, Tok.rparen :: r2) => some (v, r2)
          | _ => none
      | _ => none

end

/-- Model of the final step
`Function('"use strict"; return (' + expr + ')')()` of the source: the
expression is wrapped in parentheses and evaluated as JavaScript.  `none`
models a thrown exception (syntax error or reference error), which the
source catches.  The host accepts all of JavaScript; this model covers the
arithmetic fragment reachable from substituted formulas (numeric literals,
`Infinity`/`NaN`, unary signs, `+ - * / %`, parentheses, the comma
operator) and reports anything else as a failure. -/
def jsEval (expr : List Char) : Option JsNum :=
  match tokenize (expr.length + 1) expr with
  | none => none
  | some ts =>
      let wrapped := Tok.lparen :: ts ++ [Tok.rparen]
      match parseE (16 * (wrapped.length + 1)) wrapped with
      | some (v, []) => some v
      | _ => none

/-- The body of `evaluateFormula`, factored over the defaulted lookup so
that results depend on the snapshot only through `rawLookup`: return
non-formulas unchanged, else strip the `=`, trim, run the three
substitution passes, evaluate the residue, render the value; a failure
yields the `'#ERROR'` marker (the source's catch branch). -/
def evalFormulaCore (formula : String) (look : String → String) : String :=
  if jsStartsWithEq formula then
    match jsEval (substAll look (trimChars (formula.data.drop 1))) with
    | some v => renderJs v
    | none => "#ERROR"
  else formula

/-- The source's `evaluateFormula(formula, row, col, data)`; the row/col
parameters are unused by the source body and omitted. -/
def evaluateFormula (formula : String) (data : Snapshot) : String :=
  evalFormulaCore formula (rawLookup data)

/-- The source's `getDisplayValue`: empty content displays as empty,
formulas are evaluated (the try/catch around the call never fires in this
total model), anything else displays literally. -/
def getDisplayValue (value : String) (data : Snapshot) : String :=
  if value = "" then ""
  else if jsStartsWithEq value then evaluateFormula value data
  else value

/-- The contributing values of a list of keys: the parsed numbers of the
cells that are not formulas and not `NaN` — the cells `SUM` adds and
`AVERAGE` both adds and counts. -/
def contribVals (look : String → String) (keys : List String) : List JsNum :=
  keys.filterMap (fun k => if jsStartsWithEq (look k) then none else parseFloat (look k))

/-- Closed-form description of the `AVERAGE` scalar: the fold of the
contributing values divided by how many there are, `"0"` when there are
none. -/
def avgSpec (look : String → String) (keys : List String) : String :=
  if (contribVals look keys).length > 0 then
    renderJs (jsDiv ((contribVals look keys).foldl jsAdd (JsNum.fin (qInt 0)))
      (JsNum.fin (qInt ((contribVals look keys).length : Int))))
  else "0"

/-- Modelled from the words of the claim about `AVERAGE` (not from the
source): absent cells are read as the EMPTY string, so cells that fail to
parse — including absent ones — are excluded from the count, and a range
with no parsing cell yields `0`. -/
def claimAvgScalar (data : Snapshot) (sc sr ec er : List Char) : String :=
  let vals := (rangeKeys ((digitsToNat sr : Int) - 1) (colIndexOfLetters sc)
      ((digitsToNat er : Int) - 1) (colIndexOfLetters ec)).filterMap
      (fun k => parseFloat ((data k).getD ""))
  if vals.length > 0 then
    renderJs (jsDiv (vals.foldl jsAdd (JsNum.fin (qInt 0))) (JsNum.fin (qInt (vals.length : Int))))
  else "0"

/-- Snapshot A1=`"1"`, A2=`"2"`, A3=`"x"` of the spec's `SUM` example. -/
def dataC1 : Snapshot := fun k =>
  if k = "0-0" then some "1" else if k = "1-0" then some "2"
  else if k = "2-0" then some "x" else none

/-- Snapshot with the circular pair A1=`"=B1"`, B1=`"=A1"`. -/
def cycData : Snapshot := fun k =>
  if k = "0-0" then some "=B1" else if k = "0-1" then some "=A1" else none

/-- Snapshot with A1=`"4"` and A2 absent. -/
def d3 : Snapshot := fun k => if k = "0-0" then some "4" else none

/-- Snapshot with A1=`"1"`, B1=`"3"`, A2=`"2"`, B2=`"4"`. -/
def d4 : Snapshot := fun k =>
  if k = "0-0" then some "1" else if k = "0-1" then some "3"
  else if k = "1-0" then some "2" else if k = "1-1" then some "4" else none

/-- Snapshot with A1=`"5"` and the cell at row 0, column 26 set to `"7"`. -/
def d7 : Snapshot := fun k =>
  if k = "0-0" then some "5" else if k = "0-26" then some "7" else none

/-- Snapshot with only A1=`"5"`. -/
def d10 : Snapshot := fun k => if k = "0-0" then some "5" else none

/-- The snapshot `d10` with the absent cell B1 replaced by the string
`"0"`. -/
def d10x : Snapshot := fun k => if k = "0-1" then some "0" else d10 k

theorem avg_foldl_spec (look : String → String) (keys : List String) (acc : JsNum) (cnt : Nat) :
    keys.foldl (avgStep look) (acc, cnt) =
      ((contribVals look keys).foldl jsAdd acc, cnt + (contribVals look keys).length) := by
  induction keys generalizing acc cnt with
  | nil => simp [contribVals]
  | cons k ks ih =>
      rw [List.foldl_cons]
      cases h1 : jsStartsWithEq (look k) with
      | true =>
          have hstep : avgStep look (acc, cnt) k = (acc, cnt) := by simp [avgStep, h1]
          have hcv : contribVals look (k :: ks) = contribVals look ks := by
            simp [contribVals, h1]
          rw [hstep, hcv]
          exact ih acc cnt
      | false =>
          cases h2 : parseFloat (look k) with
          | none =>
              have hstep : avgStep look (acc, cnt) k = (acc, cnt) := by
                simp [avgStep, h1, h2]
              have hcv : contribVals look (k :: ks) = contribVals look ks := by
                simp [contribVals, h1, h2]
              rw [hstep, hcv]
              exact ih acc cnt
          | some n =>
              have hstep : avgStep look (acc, cnt) k = (jsAdd acc n, cnt + 1) := by
                simp [avgStep, h1, h2]
              have hcv : contribVals look (k :: ks) = n :: contribVals look ks := by
                simp [contribVals, h1, h2]
              have hlen : cnt + 1 + (contribVals look ks).length =
                  cnt + (n :: contribVals look ks).length := by
                simp only [List.length_cons]
                omega
              rw [hstep, hcv, ih (jsAdd acc n) (cnt + 1), List.foldl_cons, hlen]

theorem intRange_empty (a b : Int) (h : b < a) : intRange a b = [] := by
  unfold intRange
  have h0 : (b - a + 1).toNat = 0 := by omega
  rw [h0]
  rfl

theorem rangeKeys_empty (sr sc er ec : Int) (h : er < sr ∨ ec < sc) :
    rangeKeys sr sc er ec = [] := by
  unfold rangeKeys
  rcases h with h | h
  · rw [intRange_empty _ _ h]
    rfl
  · rw [intRange_empty _ _ h]
    induction intRange sr er with
    | nil => rfl
    | cons x xs ih =>
        rw [List.flatMap_cons]
        simp only [List.map_nil, List.nil_append]
        simp only [List.map_nil] at ih
        exact ih

/-- Claim C1.  The source performs the bare cell-reference pass BEFORE the
range-function pass, so on the spec's own example snapshot (A1="1",
A2="2", A3="x") the formula `=SUM(A1:A3)` is first rewritten to
`SUM(1:0)`, which the arithmetic step rejects: the cell displays the
`#ERROR` marker instead of the claimed `3`.  This theorem evaluates the
embedded code at the failing input. -/
theorem sum_after_cellref_pass_errors : evaluateFormula "=SUM(A1:A3)" dataC1 = "#ERROR" := by
  decide

/-- Claim C2.  Substitution is non-recursive: whenever the raw content a
bare cell reference resolves to starts with `=`, the reference substitutes
the string "0" — never the referenced formula's computed value — and on
the circular snapshot A1="=B1", B1="=A1" both cells evaluate to the
display value "0". -/
theorem formula_ref_contributes_zero :
    (∀ (look : String → String) (letters digits : List Char),
        jsStartsWithEq (look (cellKey letters digits)) = true →
        cellRefScalar look letters digits = "0")
    ∧ evaluateFormula "=B1" cycData = "0" ∧ evaluateFormula "=A1" cycData = "0" := by
  refine ⟨?_, by decide, by decide⟩
  intro look letters digits h
  unfold cellRefScalar
  rw [h]
  rfl

/-- Witness for C2: on the circular snapshot, the reference `B1` inside
`=B1`-style formulas substitutes "0". -/
theorem formula_ref_contributes_zero_witness :
    cellRefScalar (rawLookup cycData) ['B'] ['1'] = "0" :=
  formula_ref_contributes_zero.1 (rawLookup cycData) ['B'] ['1'] (by decide)

/-- Counterexample for C3.  Over the range A1:A2 with A1="4" and A2
absent, the code substitutes "2" for `AVERAGE(A1:A2)` — the absent cell is
read as "0", parses, and is counted — while the claim's formula (absent
cells read as the empty string and excluded from the count) yields "4". -/
theorem avgScalar_absent_counted_counterexample :
    avgScalar (rawLookup d3) ['A'] ['1'] ['A'] ['2'] = "2"
    ∧ claimAvgScalar d3 ['A'] ['1'] ['A'] ['2'] = "4"
    ∧ ("2" : String) ≠ "4" := by
  refine ⟨by decide, by decide, by decide⟩

/-- Claim C3, amended.  The scalar substituted for `AVERAGE(range)` equals
sum/count where the count includes exactly those cells of the rectangle
whose content — with absent or empty entries read as the string "0", so
absent cells count as numeric zeros — is not a formula and parses as a
number; when zero cells contribute the substituted scalar is "0", not an
error. -/
theorem avgScalar_eq_avgSpec (data : Snapshot) (sc sr ec er : List Char) :
    avgScalar (rawLookup data) sc sr ec er =
      avgSpec (rawLookup data) (rangeKeys ((digitsToNat sr : Int) - 1) (colIndexOfLetters sc)
        ((digitsToNat er : Int) - 1) (colIndexOfLetters ec)) := by
  unfold avgScalar avgSpec
  rw [avg_foldl_spec]
  simp only [Nat.zero_add]

/-- Counterexample for C4.  The range loops do not normalize corner order:
over the snapshot A1="1", B1="3", A2="2", B2="4", the scalar for
`SUM(B2:A1)` is "0" (empty iteration) while the scalar for `SUM(A1:B2)` is
"10". -/
theorem sumScalar_inverted_counterexample :
    sumScalar (rawLookup d4) ['B'] ['2'] ['A'] ['1'] = "0"
    ∧ sumScalar (rawLookup d4) ['A'] ['1'] ['B'] ['2'] = "10"
    ∧ sumScalar (rawLookup d4) ['B'] ['2'] ['A'] ['1']
        ≠ sumScalar (rawLookup d4) ['A'] ['1'] ['B'] ['2'] := by
  refine ⟨by decide, by decide, by decide⟩

/-- Claim C4, amended.  No corner normalization is performed: whenever the
written corners are inverted on either axis, the nested loops iterate over
nothing, so `SUM` substitutes "0" and `AVERAGE` substitutes "0"; a range
written corner-last is NOT equivalent to the normalized one. -/
theorem inverted_range_scalars_zero (look : String → String) (sc sr ec er : List Char)
    (h : (digitsToNat er : Int) - 1 < (digitsToNat sr : Int) - 1
        ∨ colIndexOfLetters ec < colIndexOfLetters sc) :
    sumScalar look sc sr ec er = "0" ∧ avgScalar look sc sr ec er = "0" := by
  unfold sumScalar avgScalar
  rw [rangeKeys_empty _ _ _ _ h]
  exact ⟨rfl, rfl⟩

/-- Witness for C4's amended theorem at the inverted range `B2:A1`. -/
theorem inverted_range_scalars_zero_witness :
    sumScalar (rawLookup d4) ['B'] ['2'] ['A'] ['1'] = "0"
    ∧ avgScalar (rawLookup d4) ['B'] ['2'] ['A'] ['1'] = "0" :=
  inverted_range_scalars_zero (rawLookup d4) ['B'] ['2'] ['A'] ['1'] (Or.inl (by decide))

/-- Counterexample for C5.  `=1/0` evaluates to the display string
"Infinity" — the native float sentinel — not to an error marker. -/
theorem one_div_zero_counterexample :
    evaluateFormula "=1/0" emptyData = "Infinity" ∧ ("Infinity" : String) ≠ "#ERROR" := by
  refine ⟨by decide, by decide⟩

/-- Claim C5, amended.  Division by zero produces no typed error: for
every snapshot, evaluating `=1/0` yields the numeric sentinel string
"Infinity" (JavaScript float semantics), never the error marker. -/
theorem one_div_zero_infinity (data : Snapshot) : evaluateFormula "=1/0" data = "Infinity" := rfl

/-- Counterexample for C6.  `=A0+1` does not produce an evaluation
error. -/
theorem row_zero_counterexample : evaluateFormula "=A0+1" emptyData ≠ "#ERROR" := by decide

/-- Claim C6, amended.  Address parsing performs no validation: `A0`
resolves to row index `-1` and key "-1-0"; on any snapshot where that key
is absent the reference substitutes 0, so `=A0+1` evaluates to "1", not an
error. -/
theorem row_zero_substitutes_zero (data : Snapshot) (h : data "-1-0" = none) :
    evaluateFormula "=A0+1" data = "1" := by
  have h0 : rawLookup data "-1-0" = "0" := by unfold rawLookup; rw [h]
  suffices hs : ∀ look : String → String, look "-1-0" = "0" →
      evalFormulaCore "=A0+1" look = "1" from hs (rawLookup data) h0
  intro look hl
  have h1 : cellRefScalar look ['A'] ['0'] = "0" := by
    unfold cellRefScalar
    rw [show look (cellKey ['A'] ['0']) = "0" from hl]
    rfl
  have h2 : cellRefPass look ("A0+1".data) = (cellRefScalar look ['A'] ['0']).data ++ ['+', '1'] :=
    rfl
  have h3 : substAll look (trimChars ("=A0+1".data.drop 1)) = "0+1".data := by
    show avgPass look (sumPass look (cellRefPass look ("A0+1".data))) = "0+1".data
    rw [h2, h1]
    rfl
  show (match jsEval (substAll look (trimChars ("=A0+1".data.drop 1))) with
        | some v => renderJs v
        | none => "#ERROR") = "1"
  rw [h3]
  rfl

/-- Witness for C6's amended theorem on the empty snapshot. -/
theorem row_zero_substitutes_zero_witness : evaluateFormula "=A0+1" emptyData = "1" :=
  row_zero_substitutes_zero emptyData rfl

/-- Counterexample for C7.  The column decoder reads only the first letter
of the run: "AA" decodes to column 0, and on a snapshot with A1="5" and
the cell at row 0, column 26 holding "7", the formula `=AA1` displays "5"
(column 0), not "7" (column 26). -/
theorem multi_letter_counterexample :
    colIndexOfLetters ['A', 'A'] = 0
    ∧ colIndexOfLetters ['A', 'A'] ≠ 26
    ∧ evaluateFormula "=AA1" d7 = "5" := by
  refine ⟨by decide, by decide, by decide⟩

/-- Claim C7, amended.  Column decoding uses `charCodeAt(0) - 65`, i.e.
only the first letter of the run: for every snapshot, `=AA1` evaluates to
exactly what `=A1` evaluates to. -/
theorem multi_letter_first_only (data : Snapshot) :
    evaluateFormula "=AA1" data = evaluateFormula "=A1" data := rfl

/-- Counterexample for C8.  The comma is a token outside the claimed
grammar of numeric literals, parentheses and `+ - * /`, yet `=1,2` does
not yield the error marker: the host evaluates the comma operator and the
cell displays "2". -/
theorem comma_expr_counterexample :
    evaluateFormula "=1,2" emptyData = "2" ∧ ("2" : String) ≠ "#ERROR" := by
  refine ⟨by decide, by decide⟩

/-- Claim C8, amended.  Evaluation is total (the embedded engine is a
function; the source's try/catch confines every host exception), and
whenever the host arithmetic step rejects the fully substituted expression
— unbalanced parentheses, dangling operators, an empty expression — the
result is exactly the "#ERROR" marker; but not every token outside the
minimal arithmetic grammar is rejected (`=1,2` displays "2"). -/
theorem arith_failure_yields_marker (formula : String) (data : Snapshot)
    (h1 : jsStartsWithEq formula = true)
    (h2 : jsEval (substAll (rawLookup data) (trimChars (formula.data.drop 1))) = none) :
    evaluateFormula formula data = "#ERROR" := by
  have h2x : jsEval (substAll (rawLookup data) (trimChars formula.data.tail)) = none := by
    rw [← List.drop_one]
    exact h2
  simp [evaluateFormula, evalFormulaCore, h1, h2x]

/-- Witness for C8's amended theorem: `=A1+` (which substitutes to the
dangling `0+`) displays the error marker. -/
theorem arith_failure_yields_marker_witness : evaluateFormula "=A1+" emptyData = "#ERROR" :=
  arith_failure_yields_marker "=A1+" emptyData (by decide) (by decide)

/-- Claim C9.  A string that does not start with `=` is returned by the
evaluator unchanged, with no substitution or arithmetic processing. -/
theorem non_formula_unchanged (s : String) (data : Snapshot)
    (h : jsStartsWithEq s = false) : evaluateFormula s data = s := by
  simp [evaluateFormula, evalFormulaCore, h]

/-- Witness for C9 on a numeric-looking string containing `=` after the
first character. -/
theorem non_formula_unchanged_witness : evaluateFormula "12=3" emptyData = "12=3" :=
  non_formula_unchanged "12=3" emptyData (by decide)

/-- Claim C10.  Inside formula evaluation an absent cell is
indistinguishable from a cell containing the string "0": replacing any set
of absent entries of the snapshot by "0" leaves every formula's evaluation
result unchanged, because every access goes through `data[key] || '0'`. -/
theorem absent_eq_zero_string (formula : String) (data datax : Snapshot)
    (h : ∀ k, datax k = data k ∨ (data k = none ∧ datax k = some "0")) :
    evaluateFormula formula datax = evaluateFormula formula data := by
  have hl : rawLookup datax = rawLookup data := by
    funext k
    rcases h k with h1 | ⟨h1, h2⟩
    · unfold rawLookup
      rw [h1]
    · unfold rawLookup
      rw [h1, h2]
      rfl
  unfold evaluateFormula
  rw [hl]

/-- Witness for C10: filling the absent cell B1 of `d10` with "0" does not
change the value of `=A1+B1`. -/
theorem absent_eq_zero_string_witness :
    evaluateFormula "=A1+B1" d10x = evaluateFormula "=A1+B1" d10 := by
  refine absent_eq_zero_string "=A1+B1" d10 d10x ?_
  intro k
  by_cases hk : k = "0-1"
  · subst hk
    exact Or.inr ⟨rfl, rfl⟩
  · left
    simp [d10x, hk]
